import Mathlib

/-!
Shallow embedding of `myscrcpy/controller/video_socket_controller.py`:
the video-socket handshake, decode loop, shared-memory frame channel
(publisher and subscriber sides), and camera configuration.

Bytes are modelled as `List Nat` with each entry below 256.  The mutable
shared-memory buffer is passed explicitly to the functions that read it.
-/

namespace VideoSocket

/-- Big-endian encoding of a 32-bit unsigned value, as in `struct.pack('>I', n)`. -/
def packU32BE (n : Nat) : List Nat :=
  [n / 2 ^ 24 % 256, n / 2 ^ 16 % 256, n / 2 ^ 8 % 256, n % 256]

/-- Big-endian encoding of a 16-bit unsigned value, as in `struct.pack('>H', n)`. -/
def packU16BE (n : Nat) : List Nat :=
  [n / 2 ^ 8 % 256, n % 256]

/-- Encoding `struct.pack('>IHH', seq, h, w)`: the 8-byte segment header the publisher
writes in `_share_thread` (sequence, height, width, all big-endian). -/
def packIHH (seq h w : Nat) : List Nat :=
  packU32BE seq ++ packU16BE h ++ packU16BE w

/-- Big-endian value of a list of bytes. -/
def beValue (bs : List Nat) : Nat :=
  bs.foldl (fun acc b => acc * 256 + b) 0

/-- Decoding `struct.unpack('>IHH', buf[:8])` as used by `VideoStream.coordinate`:
returns (frame_id, height, width). -/
def unpackIHH (buf : List Nat) : Nat × Nat × Nat :=
  (beValue (buf.take 4), beValue ((buf.drop 4).take 2), beValue ((buf.drop 6).take 2))

theorem unpackIHH_packIHH (seq h w : Nat) (rest : List Nat)
    (hs : seq < 2 ^ 32) (hh : h < 2 ^ 16) (hw : w < 2 ^ 16) :
    unpackIHH (packIHH seq h w ++ rest) = (seq, h, w) := by
  simp only [packIHH, packU32BE, packU16BE, unpackIHH, beValue, List.cons_append,
    List.nil_append, List.take, List.drop, List.foldl, Prod.mk.injEq]
  omega

/-- A decoded pixel frame: `_frame.to_ndarray(format='rgb24')`, shape[0] rows,
shape[1] columns, 3 channels. -/
structure Frame where
  height : Nat
  width : Nat
  data : List Nat
deriving DecidableEq, Repr

/-- The frame-holding state of `VideoSocketController`: `frame_n` starts at 0
and `last_frame` at `None` (`__init__`, lines 148-149). -/
structure FrameStore where
  frame_n : Nat
  last_frame : Option Frame
deriving DecidableEq, Repr

/-- Initial state set in `VideoSocketController.__init__`. -/
def initFrameStore : FrameStore :=
  { frame_n := 0, last_frame := none }

/-- The body of the inner `for _frame in self.code_context.decode(packet)` step:
`self.last_frame = _frame.to_ndarray(...)` then `self.frame_n += 1`. -/
def publishFrame (s : FrameStore) (f : Frame) : FrameStore :=
  { frame_n := s.frame_n + 1, last_frame := some f }

/-- One iteration body of the `while self.is_running` loop: the frames that
`parse` + `decode` yield from one `recv` (already flattened across packets,
in decode order) are published one by one. -/
def processRead (s : FrameStore) (frames : List Frame) : FrameStore :=
  frames.foldl publishFrame s

/-- The decode loop over a whole stream, modelled as the list of per-read
decoded-frame batches it yields while the session runs. -/
def runDecodeLoop (s : FrameStore) (reads : List (List Frame)) : FrameStore :=
  reads.foldl processRead s

theorem processRead_frame_n (s : FrameStore) (frames : List Frame) :
    (processRead s frames).frame_n = s.frame_n + frames.length := by
  induction frames generalizing s with
  | nil => rfl
  | cons f fs ih =>
      simp only [processRead, List.foldl_cons] at *
      rw [ih]
      simp [publishFrame]
      omega

theorem runDecodeLoop_frame_n (s : FrameStore) (reads : List (List Frame)) :
    (runDecodeLoop s reads).frame_n = s.frame_n + (reads.map List.length).sum := by
  induction reads generalizing s with
  | nil => simp [runDecodeLoop]
  | cons r rs ih =>
      simp only [runDecodeLoop, List.foldl_cons, List.map_cons, List.sum_cons] at *
      rw [ih, processRead_frame_n]
      omega

/-- The `sequence == 0 ⇔ current absent` store invariant. -/
def storeInv (s : FrameStore) : Prop :=
  s.frame_n = 0 ↔ s.last_frame = none

instance (s : FrameStore) : Decidable (storeInv s) := by
  unfold storeInv; infer_instance

/-- State of `_main_thread`: the running flag (set / cleared externally by
`close()`), the frame store, and whether `self._conn.close()` has run. -/
structure LoopState where
  is_running : Bool
  store : FrameStore
  connClosed : Bool
deriving DecidableEq, Repr

/-- The `while self.is_running:` loop of `_main_thread` (lines 176-185), run
with explicit fuel.  `input i` is the batch of frames that parse+decode yield
from the `i`-th `recv` (an exhausted stream yields empty bytes, hence `[]`;
an iteration that raises contributes the frames published before the raise,
the `except` clause just continues).  Returns `some finalState` when the loop
exits within `fuel` iterations (after which `self._conn.close()` runs),
`none` when it is still looping. -/
def runMainLoop : Nat → LoopState → (Nat → List Frame) → Nat → Option LoopState
  | 0, _, _, _ => none
  | fuel + 1, s, input, i =>
      if s.is_running then
        runMainLoop fuel { s with store := processRead s.store (input i) } input (i + 1)
      else
        some { s with connClosed := true }

/-- A stream that has been exhausted (peer closed cleanly): every further
`recv` returns empty bytes, so `parse` yields no packets and no frames. -/
def exhaustedStream : Nat → List Frame := fun _ => []

theorem runMainLoop_exhausted_running (fuel : Nat) (st : FrameStore) (i : Nat) :
    runMainLoop fuel ⟨true, st, false⟩ exhaustedStream i = none := by
  induction fuel generalizing i with
  | zero => rfl
  | succ n ih =>
      simp only [runMainLoop, if_pos rfl, exhaustedStream, processRead, List.foldl_nil]
      exact ih (i + 1)

/-- Handshake / main-thread errors raised in `_main_thread` before the loop. -/
inductive MainError where
  /-- The camera diagnostic-hint `RuntimeError` (lines 161-168). -/
  | negotiationFailed : MainError
  /-- Error `RuntimeError(f"Video Codec >{name}< not supported!")` (line 171). -/
  | unsupportedCodec (name : String) : MainError
deriving DecidableEq, Repr

/-- Video source constants `SOURCE_DISPLAY` / `SOURCE_CAMERA`. -/
def SOURCE_DISPLAY : String := "display"

/-- Constant `SOURCE_CAMERA`. -/
def SOURCE_CAMERA : String := "camera"

/-- The codec-negotiation part of `_main_thread` (lines 159-171): given the
session's video source and expected codec, check the 4-byte received codec
name.  `recv(4).decode()` is never `None`, so the Python
`_video_codec is None or _video_codec == ''` test reduces to emptiness. -/
def checkCodec (video_source video_codec received : String) : Except MainError Unit :=
  if received = "" ∧ video_source = SOURCE_CAMERA then
    Except.error MainError.negotiationFailed
  else if received ≠ video_codec then
    Except.error (MainError.unsupportedCodec received)
  else
    Except.ok ()

/-- Model of `_main_thread` up to and including the decode loop: a raised handshake
error propagates and the decode loop never runs (the store is untouched). -/
def mainThread (video_source video_codec received : String)
    (reads : List (List Frame)) (st : FrameStore) : Except MainError FrameStore :=
  match checkCodec video_source video_codec received with
  | Except.error e => Except.error e
  | Except.ok _ => Except.ok (runDecodeLoop st reads)

/-- Orientation classification (the `Param.ROTATION_*` constants). -/
inductive Rotation where
  | vertical : Rotation
  | horizontal : Rotation
deriving DecidableEq, Repr

/-- Modelled from the spec: `myscrcpy.utils.Coordinate` is not under `src/`;
per §3 it is `{width, height}` with `long_side = max`, `short_side = min`,
`orientation = portrait if height > width else landscape`. -/
structure Coordinate where
  width : Nat
  height : Nat
deriving DecidableEq, Repr

/-- Modelled from the spec: the larger dimension (`long_side`). -/
def Coordinate.max_size (c : Coordinate) : Nat := max c.width c.height

/-- Modelled from the spec: the smaller dimension (`short_side`). -/
def Coordinate.min_size (c : Coordinate) : Nat := min c.width c.height

/-- Modelled from the spec: portrait (vertical) iff `height > width`. -/
def Coordinate.rotation (c : Coordinate) : Rotation :=
  if c.height > c.width then Rotation.vertical else Rotation.horizontal

/-- Shape of an `np.ndarray` view over `shm.buf[8:]` — the buffer is aliased
live, so only the (rows, cols, 3) shape is stored here. -/
structure NdView where
  rows : Nat
  cols : Nat
deriving DecidableEq, Repr

/-- Property `VideoStream.coordinate`: unpack `'>IHH'` from the first 8 live bytes,
returning the frame_id and `Coordinate(w, h)`. -/
def streamCoordinate (buf : List Nat) : Nat × Coordinate :=
  let r := unpackIHH buf
  (r.1, Coordinate.mk r.2.2 r.2.1)

/-- State built by `VideoStream.__init__`: the two fixed-shape views over `shm.buf[8:]`,
built from the coordinate read at construction time. -/
structure VideoStream where
  frame_v : NdView
  frame_h : NdView
deriving DecidableEq, Repr

/-- Constructor `VideoStream.__init__` on the segment contents at construction time. -/
def VideoStream.ofBuf (buf : List Nat) : VideoStream :=
  let c := (streamCoordinate buf).2
  { frame_v := ⟨c.max_size, c.min_size⟩, frame_h := ⟨c.min_size, c.max_size⟩ }

/-- The subscriber-read error `RuntimeError("VideoStream Closed!")`. -/
inductive StreamError where
  | streamClosed : StreamError
deriving DecidableEq, Repr

/-- Model of `VideoStream.get_frame` on the current segment contents `buf`: re-read the
coordinate, fail if `frame_id == 0`, otherwise pick `_frame_v` or `_frame_h`
by the re-derived rotation; either view aliases `buf[8:]`. -/
def VideoStream.get_frame (v : VideoStream) (buf : List Nat) :
    Except StreamError (Coordinate × NdView × List Nat) :=
  let r := streamCoordinate buf
  if r.1 = 0 then
    Except.error StreamError.streamClosed
  else if r.2.rotation = Rotation.vertical then
    Except.ok (r.2, v.frame_v, buf.drop 8)
  else
    Except.ok (r.2, v.frame_h, buf.drop 8)

/-- One publisher write in `_share_thread` (lines 213-216):
`buf[:] = pack('>IHH', frame_n, shape[0], shape[1]) + frame.tobytes()`. -/
def publishSegment (frame_n : Nat) (f : Frame) : List Nat :=
  packIHH frame_n f.height f.width ++ f.data

/-- The `_share_thread` teardown write (line 220):
`buf[:4] = pack('>I', 0)`, leaving the rest of the segment as is. -/
def writeClosedSentinel (buf : List Nat) : List Nat :=
  packU32BE 0 ++ buf.drop 4

/-- Python truthiness of an optional string: `None` and `''` are falsy. -/
def pyTruthy : Option String → Bool
  | none => false
  | some s => decide (s ≠ "")

/-- Class `VideoCamera` (lines 84-94): camera id, optional aspect ratio, optional
explicit size, fps (default 0). -/
structure VideoCamera where
  camera_id : Nat
  camera_ar : Option String
  camera_size : Option String
  camera_fps : Nat
deriving DecidableEq, Repr

/-- Method `VideoCamera.to_args` (lines 96-107): `camera_id` always; `camera_size`
if truthy, `elif` `camera_ar` if truthy; `camera_fps` if positive. -/
def VideoCamera.to_args (c : VideoCamera) : List String :=
  ["camera_id=" ++ toString c.camera_id]
    ++ (if pyTruthy c.camera_size then ["camera_size=" ++ c.camera_size.getD ""]
        else if pyTruthy c.camera_ar then ["camera_ar=" ++ c.camera_ar.getD ""]
        else [])
    ++ (if c.camera_fps > 0 then ["camera_fps=" ++ toString c.camera_fps] else [])

/-- Errors of the `multiprocessing.shared_memory.SharedMemory` constructor. -/
inductive ShmError where
  /-- Python `FileExistsError`: `create=True` with an existing name. -/
  | fileExists : ShmError
  /-- Python `FileNotFoundError`: attach to a name that does not exist. -/
  | fileNotFound : ShmError
deriving DecidableEq, Repr

/-- Outcome of segment setup: a fresh segment was created, or the existing
segment of that name was attached. -/
inductive ShmHandle where
  | created (name : String) : ShmHandle
  | attached (name : String) : ShmHandle
deriving DecidableEq, Repr

/-- Call `SharedMemory(name=n, create=True, size=s)` against the registry of
existing segment names: raises `FileExistsError` on a name collision. -/
def sharedMemoryNew (registry : List String) (name : String) :
    Except ShmError ShmHandle :=
  if name ∈ registry then Except.error ShmError.fileExists
  else Except.ok (ShmHandle.created name)

/-- Call `SharedMemory(name=n)`: attach to an existing segment. -/
def sharedMemoryOpen (registry : List String) (name : String) :
    Except ShmError ShmHandle :=
  if name ∈ registry then Except.ok (ShmHandle.attached name)
  else Except.error ShmError.fileNotFound

/-- Method `VideoSocketController.create_shared_frame` (lines 187-196): try to create
the freshly named segment; on `FileExistsError`, attach to the existing one. -/
def create_shared_frame (registry : List String) (f_name : String) :
    Except ShmError ShmHandle :=
  match sharedMemoryNew registry f_name with
  | Except.ok h => Except.ok h
  | Except.error ShmError.fileExists => sharedMemoryOpen registry f_name
  | Except.error e => Except.error e

theorem string_ar_ne_id (a b : String) : "camera_ar=" ++ a ≠ "camera_id=" ++ b := by
  intro h
  have h2 := congrArg String.data h
  simp [String.data_append] at h2

theorem string_ar_ne_size (a b : String) : "camera_ar=" ++ a ≠ "camera_size=" ++ b := by
  intro h
  have h2 := congrArg String.data h
  simp [String.data_append] at h2

theorem string_ar_ne_fps (a b : String) : "camera_ar=" ++ a ≠ "camera_fps=" ++ b := by
  intro h
  have h2 := congrArg String.data h
  simp [String.data_append] at h2

theorem string_size_ne_id (a b : String) : "camera_size=" ++ a ≠ "camera_id=" ++ b := by
  intro h
  have h2 := congrArg String.data h
  simp [String.data_append] at h2

theorem string_size_ne_fps (a b : String) : "camera_size=" ++ a ≠ "camera_fps=" ++ b := by
  intro h
  have h2 := congrArg String.data h
  simp [String.data_append] at h2

/-- C1: starting from `frame_n = 0`, the decode loop leaves `frame_n` equal to
the total number of successfully decoded frames across all reads, and every
single decoded frame advances the counter by exactly one (so the counter is
strictly increasing in decode order, never decreasing or repeating). -/
theorem decode_loop_sequence_count (reads : List (List Frame)) :
    (runDecodeLoop initFrameStore reads).frame_n = (reads.map List.length).sum
    ∧ ∀ (s : FrameStore) (f : Frame), (publishFrame s f).frame_n = s.frame_n + 1 := by
  refine ⟨?_, fun s f => rfl⟩
  rw [runDecodeLoop_frame_n]
  simp [initFrameStore]

/-- C2: packing a header with `struct.pack('>IHH', seq, h, w)` followed by any
payload and unpacking the first 8 bytes with `struct.unpack('>IHH', buf[:8])`
yields back exactly `(seq, h, w)` for every in-range triple. -/
theorem header_pack_unpack_roundtrip (seq h w : Nat) (payload : List Nat)
    (hs : seq < 2 ^ 32) (hh : h < 2 ^ 16) (hw : w < 2 ^ 16) :
    unpackIHH (packIHH seq h w ++ payload) = (seq, h, w) :=
  unpackIHH_packIHH seq h w payload hs hh hw

theorem header_pack_unpack_roundtrip_witness :
    unpackIHH (packIHH 5 1920 1080 ++ []) = (5, 1920, 1080) :=
  header_pack_unpack_roundtrip 5 1920 1080 [] (by decide) (by decide) (by decide)

/-- C3: on a read whose header has frame_id ≠ 0, if the header's height
exceeds its width the subscriber returns the `_frame_v` portrait view
(long_side rows × short_side columns), otherwise the `_frame_h` landscape
view (short_side rows × long_side columns); both results carry the same
payload bytes `buf[8:]`, and the choice depends only on the current header,
re-read on this call (the view shapes were fixed at construction from a
header of the same size class). -/
theorem get_frame_orientation_select
    (fid0 h0 w0 fid h w : Nat) (p0 payload : List Nat)
    (hs0 : fid0 < 2 ^ 32) (hh0 : h0 < 2 ^ 16) (hw0 : w0 < 2 ^ 16)
    (hs : fid < 2 ^ 32) (hh : h < 2 ^ 16) (hw : w < 2 ^ 16)
    (hfid : fid ≠ 0)
    (hmax : max w0 h0 = max w h) (hmin : min w0 h0 = min w h) :
    ((h > w → (VideoStream.ofBuf (packIHH fid0 h0 w0 ++ p0)).get_frame
        (packIHH fid h w ++ payload)
        = Except.ok (Coordinate.mk w h, NdView.mk (max w h) (min w h), payload))
      ∧ (¬ h > w → (VideoStream.ofBuf (packIHH fid0 h0 w0 ++ p0)).get_frame
        (packIHH fid h w ++ payload)
        = Except.ok (Coordinate.mk w h, NdView.mk (min w h) (max w h), payload))) := by
  have e0 := unpackIHH_packIHH fid0 h0 w0 p0 hs0 hh0 hw0
  have e := unpackIHH_packIHH fid h w payload hs hh hw
  have hdrop : (packIHH fid h w ++ payload).drop 8 = payload := by
    simp [packIHH, packU32BE, packU16BE]
  constructor
  · intro hgt
    simp [VideoStream.get_frame, VideoStream.ofBuf, streamCoordinate, e0, e, hfid,
      Coordinate.rotation, Coordinate.max_size, Coordinate.min_size, hgt, hdrop,
      hmax, hmin]
  · intro hle
    simp [VideoStream.get_frame, VideoStream.ofBuf, streamCoordinate, e0, e, hfid,
      Coordinate.rotation, Coordinate.max_size, Coordinate.min_size, hle, hdrop,
      hmax, hmin, Rotation]

theorem get_frame_orientation_select_witness :
    ((VideoStream.ofBuf (packIHH 1 1920 1080 ++ [])).get_frame
        (packIHH 2 1920 1080 ++ [])
      = Except.ok (Coordinate.mk 1080 1920, NdView.mk 1920 1080, []))
    ∧ ((VideoStream.ofBuf (packIHH 1 1920 1080 ++ [])).get_frame
        (packIHH 3 1080 1920 ++ [])
      = Except.ok (Coordinate.mk 1920 1080, NdView.mk 1080 1920, [])) := by
  constructor
  · exact (get_frame_orientation_select 1 1920 1080 2 1920 1080 [] []
      (by decide) (by decide) (by decide) (by decide) (by decide) (by decide)
      (by decide) (by decide) (by decide)).1 (by decide)
  · exact (get_frame_orientation_select 1 1920 1080 3 1080 1920 [] []
      (by decide) (by decide) (by decide) (by decide) (by decide) (by decide)
      (by decide) (by decide) (by decide)).2 (by decide)

/-- C4: after the publisher teardown writes the CLOSED sentinel into the first
4 bytes, those bytes decode as big-endian 0, and every subsequent subscriber
`get_frame` on the segment fails with the stream-closed error. -/
theorem close_sentinel_blocks_reads (buf : List Nat) (v : VideoStream) :
    beValue ((writeClosedSentinel buf).take 4) = 0
    ∧ v.get_frame (writeClosedSentinel buf) = Except.error StreamError.streamClosed := by
  have hb : writeClosedSentinel buf = 0 :: 0 :: 0 :: 0 :: buf.drop 4 := by
    simp [writeClosedSentinel, packU32BE]
  rw [hb]
  constructor
  · rfl
  · simp [VideoStream.get_frame, streamCoordinate, unpackIHH, beValue]

/-- C5 counterexample: an exhausted stream (every recv yields empty bytes,
hence no decoded frames) does not end the loop while the running flag is
set — `runMainLoop` never exits, for any amount of fuel, contradicting the
claim that exhaustion is detected and terminates the loop. -/
theorem decode_loop_exhaustion_not_detected :
    ¬ ∃ fuel : Nat,
        (runMainLoop fuel ⟨true, initFrameStore, false⟩ exhaustedStream 0).isSome := by
  rintro ⟨fuel, hf⟩
  rw [runMainLoop_exhausted_running] at hf
  simp at hf

/-- C5 amended: the decode loop terminates exactly when the running flag is
cleared — it then exits on the next iteration check and closes the stream —
while an exhausted stream with the flag still set loops forever. -/
theorem decode_loop_exit_is_flag_only (st : FrameStore) (input : Nat → List Frame)
    (i fuel : Nat) :
    runMainLoop (fuel + 1) ⟨false, st, false⟩ input i = some ⟨false, st, true⟩
    ∧ runMainLoop fuel ⟨true, st, false⟩ exhaustedStream i = none := by
  constructor
  · simp [runMainLoop]
  · induction fuel generalizing i with
    | zero => rfl
    | succ n ih =>
        simp only [runMainLoop, if_pos rfl, exhaustedStream, processRead, List.foldl_nil]
        exact ih (i + 1)

/-- C6: a 4-byte received codec name that differs from the expected codec
makes the handshake fail with the unsupported-codec error carrying the
received name, before the decode loop runs (the frame store is untouched). -/
theorem handshake_codec_mismatch (source codec received : String)
    (reads : List (List Frame)) (st : FrameStore)
    (hlen : received.length = 4) (hne : received ≠ codec) :
    mainThread source codec received reads st
      = Except.error (MainError.unsupportedCodec received) := by
  have hnil : received ≠ "" := by
    intro h
    rw [h] at hlen
    simp at hlen
  simp [mainThread, checkCodec, hnil, hne]

theorem handshake_codec_mismatch_witness :
    mainThread SOURCE_DISPLAY "h264" "h265" [] initFrameStore
      = Except.error (MainError.unsupportedCodec "h265") :=
  handshake_codec_mismatch SOURCE_DISPLAY "h264" "h265" [] initFrameStore
    (by decide) (by decide)

/-- C7: `sequence == 0 ⇔ current frame absent` holds in the initial state and
is preserved by every publish step of the decode loop (after a publish the
counter is non-zero and a frame is present). -/
theorem store_invariant_preserved (s : FrameStore) (f : Frame) :
    storeInv initFrameStore ∧ (storeInv s → storeInv (publishFrame s f)) := by
  constructor
  · simp [storeInv, initFrameStore]
  · intro _
    simp [storeInv, publishFrame]

theorem store_invariant_preserved_witness :
    storeInv (publishFrame initFrameStore (Frame.mk 1080 1920 [])) :=
  (store_invariant_preserved initFrameStore (Frame.mk 1080 1920 [])).2 (by decide)

/-- C8: when the explicit camera size is set (truthy), the emitted argument
list contains the `camera_size` token and no `camera_ar` token; and in every
emitted configuration the two tokens are mutually exclusive, with size taking
priority. -/
theorem camera_size_priority (c : VideoCamera) (sz : String)
    (hsz : c.camera_size = some sz) (hne : sz ≠ "") :
    (("camera_size=" ++ sz) ∈ c.to_args
      ∧ ∀ s : String, ("camera_ar=" ++ s) ∉ c.to_args)
    ∧ ∀ (d : VideoCamera) (s t : String),
        ("camera_size=" ++ s) ∈ d.to_args → ("camera_ar=" ++ t) ∉ d.to_args := by
  have htr' : pyTruthy (some sz) = true := by
    simp [pyTruthy, hne]
  constructor
  · constructor
    · simp [VideoCamera.to_args, hsz, htr']
    · intro s hmem
      simp [VideoCamera.to_args, hsz, htr'] at hmem
      rcases hmem with h1 | h2 | ⟨_, h3⟩
      · exact string_ar_ne_id s _ h1
      · exact string_ar_ne_size s _ h2
      · exact string_ar_ne_fps s _ h3
  · intro d s t hmem hmem2
    by_cases htr : pyTruthy d.camera_size = true
    · simp [VideoCamera.to_args, htr] at hmem2
      rcases hmem2 with h1 | h2 | ⟨_, h3⟩
      · exact string_ar_ne_id t _ h1
      · exact string_ar_ne_size t _ h2
      · exact string_ar_ne_fps t _ h3
    · simp [VideoCamera.to_args, htr] at hmem
      rcases hmem with h1 | h2 | ⟨_, h3⟩
      · exact string_size_ne_id s _ h1
      · rcases h2 with ⟨_, h2'⟩
        exact string_ar_ne_size _ s h2'.symm
      · exact string_size_ne_fps s _ h3

theorem camera_size_priority_witness :
    ("camera_size=" ++ "1280x720")
      ∈ (VideoCamera.mk 0 (some "16:9") (some "1280x720") 0).to_args :=
  ((camera_size_priority (VideoCamera.mk 0 (some "16:9") (some "1280x720") 0)
    "1280x720" rfl (by decide)).1).1

/-- C9: segment creation never raises on a name collision — when the fresh
name already exists, `create_shared_frame` attaches to the existing segment;
in every case it returns a handle rather than an error. -/
theorem create_shared_frame_no_raise (registry : List String) (f_name : String) :
    (f_name ∈ registry →
      create_shared_frame registry f_name = Except.ok (ShmHandle.attached f_name))
    ∧ ∃ h : ShmHandle, create_shared_frame registry f_name = Except.ok h := by
  by_cases hmem : f_name ∈ registry
  · refine ⟨fun _ => ?_, ShmHandle.attached f_name, ?_⟩ <;>
      simp [create_shared_frame, sharedMemoryNew, sharedMemoryOpen, hmem]
  · refine ⟨fun h => absurd h hmem, ShmHandle.created f_name, ?_⟩
    simp [create_shared_frame, sharedMemoryNew, hmem]

theorem create_shared_frame_no_raise_witness :
    create_shared_frame ["vf_0802120000_12345"] "vf_0802120000_12345"
      = Except.ok (ShmHandle.attached "vf_0802120000_12345") :=
  (create_shared_frame_no_raise ["vf_0802120000_12345"] "vf_0802120000_12345").1
    (by simp)

/-- C10: an empty codec name with the DISPLAY source skips the camera
diagnostic-hint branch and falls through to the codec comparison, failing
with the generic unsupported-codec error; the diagnostic-hint failure is
reachable only when the source is CAMERA. -/
theorem empty_codec_display_falls_through :
    checkCodec SOURCE_DISPLAY "h264" "" = Except.error (MainError.unsupportedCodec "")
    ∧ ∀ source codec received : String,
        checkCodec source codec received = Except.error MainError.negotiationFailed
        → source = SOURCE_CAMERA := by
  constructor
  · rfl
  · intro source codec received h
    by_cases hc : received = "" ∧ source = SOURCE_CAMERA
    · exact hc.2
    · simp only [checkCodec, if_neg hc] at h
      by_cases hne : received ≠ codec
      · simp [hne] at h
      · simp [hne] at h

theorem empty_codec_display_falls_through_witness :
    SOURCE_CAMERA = SOURCE_CAMERA :=
  (empty_codec_display_falls_through).2 SOURCE_CAMERA "h264" "" (by rfl)

end VideoSocket
